import Mathlib

/-!
Shallow embedding of the resource-selection engine of the mayastor
control plane: the scheduling filter/sort stage libraries
(control-plane/agents/core/src/core/scheduling/mod.rs), the resource
state cache (control-plane/agents/core/src/core/states.rs), and the
nexus transport configuration (common/src/types/v0/transport/nexus.rs).
Machine integers are modelled as Nat, with an explicit modulus where
wrapping matters; fallible constructors return Except.
-/

/-- Three-way comparison on Nat, mirroring Rust Ord::cmp for unsigned
integers. -/
def natCmp (a b : Nat) : Ordering :=
  if a < b then Ordering.lt else if b < a then Ordering.gt else Ordering.eq

/-- Three-way comparison on Bool, mirroring Rust Ord::cmp for bool
(false is less than true). -/
def boolCmp : Bool → Bool → Ordering
  | false, true => Ordering.lt
  | true, false => Ordering.gt
  | _, _ => Ordering.eq

/-- Three-way comparison on Option, mirroring Rust Ord::cmp for
Option (None is less than Some; two Some compare by the payload). -/
def optionCmp (c : α → α → Ordering) : Option α → Option α → Ordering
  | none, none => Ordering.eq
  | none, some _ => Ordering.lt
  | some _, none => Ordering.gt
  | some x, some y => c x y

/-! ## common/src/types/v0/transport/nexus.rs -/

/-- Resource kinds used to tag request errors (transport_api). Only the
kinds referenced by the embedded code are listed. -/
inductive ResourceKind
  | Nexus
  | Pool
  | Replica
deriving DecidableEq, Repr

/-- Kind of a reply error; the embedded code only builds
invalid-argument errors. -/
inductive ReplyErrorKind
  | InvalidArgument
deriving DecidableEq, Repr

/-- Reply error carrying its kind and the resource kind it is tagged
with; the human-readable message strings of the source are not
modelled. -/
structure ReplyError where
  kind : ReplyErrorKind
  resource : ResourceKind
deriving DecidableEq, Repr

/-- ReplyError::invalid_argument constructor (message strings elided). -/
def ReplyError.invalid_argument (resource : ResourceKind) : ReplyError :=
  { kind := ReplyErrorKind.InvalidArgument, resource := resource }

/-- Nvmf controller id range: an inclusive range of u16 controller ids,
exposed through its min and max accessors. -/
structure NvmfControllerIdRange where
  min : Nat
  max : Nat
deriving DecidableEq, Repr

/-- MIN_CONTROLLER_ID from controller_id_range. -/
def MIN_CONTROLLER_ID : Nat := 1

/-- MAX_CONTROLLER_ID from controller_id_range. -/
def MAX_CONTROLLER_ID : Nat := 0xffef

/-- Membership in the fixed controller_id_range (RangeInclusive
contains). -/
def controller_id_range_contains (x : Nat) : Bool :=
  decide (MIN_CONTROLLER_ID ≤ x) && decide (x ≤ MAX_CONTROLLER_ID)

/-- NvmfControllerIdRange::new: validates that both bounds lie in the
fixed controller id range and that start is strictly below end,
otherwise returns an invalid-argument error tagged with the Nexus
resource kind. -/
def NvmfControllerIdRange.new (start stop : Nat) :
    Except ReplyError NvmfControllerIdRange :=
  if controller_id_range_contains start && controller_id_range_contains stop
      && decide (start < stop) then
    Except.ok { min := start, max := stop }
  else
    Except.error (ReplyError.invalid_argument ResourceKind.Nexus)

/-- NvmfControllerIdRange::random_min: the random u16 draw is passed in
explicitly as r; the u16 addition r + MIN_CONTROLLER_ID wraps modulo
2 to the 16, as Rust release-mode u16 arithmetic does, and the result
is clamped from above by MAX_CONTROLLER_ID. -/
def NvmfControllerIdRange.random_min (r : Nat) : NvmfControllerIdRange :=
  let rand_min := Nat.min ((r + MIN_CONTROLLER_ID) % 65536) MAX_CONTROLLER_ID
  { min := rand_min, max := MAX_CONTROLLER_ID }

/-! ## Domain entities consumed by the scheduling pipeline

The scheduling comparators and predicates below are translated from
control-plane/agents/core/src/core/scheduling/mod.rs. The view records
they operate on (ChildItem, ReplicaItem, NexusChildItem, PoolItem) and
the message-bus entity types live outside the shown sources, so their
shapes are modelled from the spec, carrying exactly the fields the
embedded code reads. -/

/-- Modelled from the spec: child health state of a nexus child. The
spec requires both comparable and incomparable health states; Unknown
is incomparable to every state (itself included) and the remaining
states are totally ordered Faulted, then Degraded, then Online. -/
inductive ChildState
  | Unknown
  | Online
  | Degraded
  | Faulted
deriving DecidableEq, Repr

/-- Rank of the comparable child states (larger is healthier). -/
def ChildState.rank : ChildState → Nat
  | ChildState.Faulted => 0
  | ChildState.Degraded => 1
  | ChildState.Online => 2
  | ChildState.Unknown => 3

/-- Modelled from the spec: the partial comparison of child health
states (Rust PartialOrd), with Unknown incomparable to everything. -/
def ChildState.pcmp : ChildState → ChildState → Option Ordering
  | ChildState.Unknown, _ => none
  | _, ChildState.Unknown => none
  | a, b => some (natCmp a.rank b.rank)

/-- Pool health state (message-bus PoolStatus). -/
inductive PoolStatus
  | Unknown
  | Online
  | Degraded
  | Faulted
deriving DecidableEq, Repr

/-- Share protocol of a replica (message-bus Protocol). -/
inductive Protocol
  | None
  | Nvmf
  | Iscsi
  | Nbd
deriving DecidableEq, Repr

/-- Protocol::shared: every protocol other than None means the replica
is shared (remote), None means local. -/
def Protocol.shared : Protocol → Bool
  | Protocol.None => false
  | _ => true

/-- Modelled from the spec: the replica desired-state spec, carrying
the share mode read by the removal comparators. -/
structure ReplicaSpec where
  share : Protocol
deriving DecidableEq, Repr

/-- Modelled from the spec: presence marker of the nexus-child spec a
replica is attached through (the comparators only test presence). -/
structure NexusChildSpec
deriving DecidableEq, Repr

/-- Modelled from the spec: live state of a nexus child, carrying the
health state and the rebuild progress read by the removal
comparators. -/
structure Child where
  state : ChildState
  rebuild_progress : Nat
deriving DecidableEq, Repr

/-- Modelled from the spec: live replica state (message-bus Replica),
carrying identity, the hosting node, online flag and size. -/
structure Replica where
  uuid : Nat
  node : Nat
  online : Bool
  size : Nat
deriving DecidableEq, Repr

/-- Modelled from the spec: persisted child-health metadata (healthy
flag recorded from a prior rebuild). -/
structure ChildInfo where
  healthy : Bool
deriving DecidableEq, Repr

/-- Modelled from the spec: wrapper of a node in the registry; only the
online flag is read by the node filters. -/
structure NodeWrapper where
  is_online : Bool
deriving DecidableEq, Repr

/-- Modelled from the spec: wrapper of a pool in the registry, carrying
the owning node, free space, allocated-replica count and health
state. -/
structure PoolWrapper where
  node : Nat
  free_space : Nat
  replica_count : Nat
  state : PoolStatus
deriving DecidableEq, Repr

/-- Modelled from the spec: pool candidate view record joining the node
wrapper with the pool wrapper. -/
structure PoolItem where
  node : NodeWrapper
  pool : PoolWrapper
deriving DecidableEq, Repr

/-- Modelled from the spec: replica/child candidate view record for
nexus-children selection and replica addition, joining the live replica
state, the optional persisted child info and the hosting pool. -/
structure ChildItem where
  state : Replica
  info : Option ChildInfo
  pool : PoolWrapper
deriving DecidableEq, Repr

/-- Modelled from the spec: replica candidate view record for
replica-level removal, joining the replica spec with the optional
nexus-child spec and live child state. -/
structure ReplicaItem where
  spec : ReplicaSpec
  child_spec : Option NexusChildSpec
  child_state : Option Child
deriving DecidableEq, Repr

/-- Modelled from the spec: nexus-child candidate view record for
nexus-child removal, joining the optional backing replica spec with the
optional live child state. -/
structure NexusChildItem where
  replica : Option ReplicaSpec
  child_state : Option Child
deriving DecidableEq, Repr

/-- Modelled from the spec: nexus desired-state spec; the add-replica
comparator reads the node the nexus lives on. -/
structure NexusSpec where
  node : Nat
deriving DecidableEq, Repr

/-- Modelled from the spec: volume desired-state spec; the size is read
by the size filters. -/
structure VolumeSpec where
  size : Nat
deriving DecidableEq, Repr

/-- Modelled from the spec: persisted nexus info; only its presence is
tested by the healthy filter. -/
structure NexusInfo
deriving DecidableEq, Repr

/-- Modelled from the spec: per-request context for adding a replica to
an existing nexus. -/
structure VolumeReplicasForNexusCtx where
  nexus_spec : NexusSpec
  vol_spec : VolumeSpec
deriving DecidableEq, Repr

/-- Modelled from the spec: per-request context for nexus-children
selection, bundling the optional persisted nexus info, the volume spec
and the target node. -/
structure GetPersistedNexusChildrenCtx where
  nexus_info : Option NexusInfo
  spec : VolumeSpec
  target_node : Nat
deriving DecidableEq, Repr

/-- Modelled from the spec: per-request context for pool selection,
bundling the requested size, the allowed-node topology constraint and
the nodes the registry records as already hosting a replica of the
requesting volume (registry.specs.get_volume_data_nodes). -/
structure GetSuitablePoolsContext where
  size : Nat
  allowed_nodes : List Nat
  volume_data_nodes : List Nat
deriving DecidableEq, Repr

/-! ## control-plane/agents/core/src/core/scheduling/mod.rs -/

/-- NodeFilters::online: only use online nodes. -/
def NodeFilters.online (_request : GetSuitablePoolsContext) (item : PoolItem) :
    Bool :=
  item.node.is_online

/-- NodeFilters::allowed: only use nodes allowed by the topology (an
empty constraint is unconstrained). -/
def NodeFilters.allowed (request : GetSuitablePoolsContext) (item : PoolItem) :
    Bool :=
  request.allowed_nodes.isEmpty || request.allowed_nodes.contains item.pool.node

/-- NodeFilters::unused: only use nodes not currently used by the
volume. -/
def NodeFilters.unused (request : GetSuitablePoolsContext) (item : PoolItem) :
    Bool :=
  !(request.volume_data_nodes.contains item.pool.node)

/-- PoolFilters::free_space: only use pools with free space strictly
above the requested size. -/
def PoolFilters.free_space (request : GetSuitablePoolsContext)
    (item : PoolItem) : Bool :=
  decide (item.pool.free_space > request.size)

/-- PoolFilters::usable: only use pools that are neither Faulted nor
Unknown. -/
def PoolFilters.usable (_request : GetSuitablePoolsContext)
    (item : PoolItem) : Bool :=
  !(item.pool.state == PoolStatus.Faulted)
    && !(item.pool.state == PoolStatus.Unknown)

/-- PoolSorters::sort_by_replica_count: ascending by allocated-replica
count (the PoolWrapper Ord of the source, modelled from the spec). -/
def PoolSorters.sort_by_replica_count (a b : PoolItem) : Ordering :=
  natCmp a.pool.replica_count b.pool.replica_count

/-- ChildSorters::sort_by_child: a replica that is not part of a nexus
is preferred; when both are attached, the child states are compared,
and when the states are incomparable the rebuild progress decides. -/
def ChildSorters.sort_by_child (a b : ReplicaItem) : Ordering :=
  match a.child_spec with
  | none =>
    match b.child_spec with
    | none => Ordering.eq
    | some _ => Ordering.gt
  | some _ =>
    match b.child_spec with
    | none => Ordering.lt
    | some _ =>
      match a.child_state, b.child_state with
      | some a_state, some b_state =>
        match ChildState.pcmp a_state.state b_state.state with
        | none => natCmp a_state.rebuild_progress b_state.rebuild_progress
        | some ord => ord
      | some _, none => Ordering.lt
      | none, some _ => Ordering.gt
      | none, none => Ordering.eq

/-- ChildSorters::sort: the nested child comparator first; on a tie the
local replica (share mode not shared) orders after the non-local one. -/
def ChildSorters.sort (a b : ReplicaItem) : Ordering :=
  match ChildSorters.sort_by_child a b with
  | Ordering.eq =>
    let childa_is_local := !a.spec.share.shared
    let childb_is_local := !b.spec.share.shared
    if childa_is_local == childb_is_local then Ordering.eq
    else if childa_is_local then Ordering.gt
    else Ordering.lt
  | ord => ord

/-- ChildInfoFilters::healthy: on first creation there is no persisted
nexus info so all children are deemed healthy; otherwise the persisted
child info must be present and mark the child healthy. -/
def ChildInfoFilters.healthy (request : GetPersistedNexusChildrenCtx)
    (item : ChildItem) : Bool :=
  let first_create := request.nexus_info.isNone
  first_create || (item.info.map ChildInfo.healthy).getD false

/-- ReplicaFilters::online: only children with online replicas. -/
def ReplicaFilters.online (_request : GetPersistedNexusChildrenCtx)
    (item : ChildItem) : Bool :=
  item.state.online

/-- ReplicaFilters::size: only children whose replica is at least as
large as the requested size. -/
def ReplicaFilters.size (request : GetPersistedNexusChildrenCtx)
    (item : ChildItem) : Bool :=
  decide (item.state.size ≥ request.spec.size)

/-- ChildItemSorters::sort_by_locality: children local to the node the
nexus will be created on come first. -/
def ChildItemSorters.sort_by_locality (request : GetPersistedNexusChildrenCtx)
    (a b : ChildItem) : Ordering :=
  let a_is_local := a.state.node == request.target_node
  let b_is_local := b.state.node == request.target_node
  match a_is_local, b_is_local with
  | true, false => Ordering.lt
  | false, true => Ordering.gt
  | _, _ => Ordering.eq

/-- AddReplicaFilters::online: only children with online replicas. -/
def AddReplicaFilters.online (_request : VolumeReplicasForNexusCtx)
    (item : ChildItem) : Bool :=
  item.state.online

/-- AddReplicaFilters::size: only children whose replica is at least as
large as the volume size. -/
def AddReplicaFilters.size (request : VolumeReplicasForNexusCtx)
    (item : ChildItem) : Bool :=
  decide (item.state.size ≥ request.vol_spec.size)

/-- AddReplicaSorters::sort: replicas local to the nexus first, then
replicas whose persisted info marks them healthy, then the comparison
of the pool free space of the two candidates. -/
def AddReplicaSorters.sort (request : VolumeReplicasForNexusCtx)
    (a b : ChildItem) : Ordering :=
  let a_is_local := a.state.node == request.nexus_spec.node
  let b_is_local := b.state.node == request.nexus_spec.node
  match a_is_local, b_is_local with
  | true, false => Ordering.lt
  | false, true => Ordering.gt
  | _, _ =>
    let a_healthy := (a.info.map ChildInfo.healthy).getD false
    let b_healthy := (b.info.map ChildInfo.healthy).getD false
    match a_healthy, b_healthy with
    | true, false => Ordering.lt
    | false, true => Ordering.gt
    | _, _ => natCmp a.pool.free_space b.pool.free_space

/-- NexusChildSorter::sort: children not backed by a replica spec are
removed first, then children with no live state, then the child states
are compared and on an equal or incomparable comparison the child that
is not local to the nexus is preferred for removal. -/
def NexusChildSorter.sort (a b : NexusChildItem) : Ordering :=
  match a.replica, b.replica with
  | some _, none => Ordering.gt
  | none, some _ => Ordering.lt
  | _, _ =>
    match a.child_state, b.child_state with
    | some a_status, some b_status =>
      match ChildState.pcmp a_status.state b_status.state with
      | none =>
        let a_is_local := a.replica.map (fun spec => !spec.share.shared)
        let b_is_local := b.replica.map (fun spec => !spec.share.shared)
        optionCmp boolCmp a_is_local b_is_local
      | some Ordering.eq =>
        let a_is_local := a.replica.map (fun spec => !spec.share.shared)
        let b_is_local := b.replica.map (fun spec => !spec.share.shared)
        optionCmp boolCmp a_is_local b_is_local
      | some ordering => ordering
    | some _, none => Ordering.gt
    | none, some _ => Ordering.lt
    | none, none => Ordering.eq

/-! ## Filter/sort pipeline (spec-modelled composition)

The generic ResourceFilter pipeline of the source carries a request and
a candidate list through filter and sort stages; on lists, filter is
List.filter and sort is a comparator-driven stable sort, modelled here
as an insertion sort. -/

/-- One insertion step of the pipeline sort stage. -/
def insertSortedBy (le : α → α → Bool) (x : α) : List α → List α
  | [] => [x]
  | y :: ys => if le x y then x :: y :: ys else y :: insertSortedBy le x ys

/-- The pipeline sort stage: insertion sort by a boolean comparator. -/
def sortBy (le : α → α → Bool) : List α → List α
  | [] => []
  | x :: xs => insertSortedBy le x (sortBy le xs)

theorem mem_insertSortedBy (le : α → α → Bool) (x a : α) (l : List α) :
    a ∈ insertSortedBy le x l ↔ a = x ∨ a ∈ l := by
  induction l with
  | nil => simp [insertSortedBy]
  | cons y ys ih =>
    by_cases h : le x y
    · simp [insertSortedBy, h]
    · simp only [insertSortedBy, if_neg h, List.mem_cons, ih]
      tauto

theorem mem_sortBy (le : α → α → Bool) (a : α) (l : List α) :
    a ∈ sortBy le l ↔ a ∈ l := by
  induction l with
  | nil => simp [sortBy]
  | cons x xs ih => simp [sortBy, mem_insertSortedBy, ih]

/-- Modelled from the spec: the select_pool pipeline (its composition
lives in the scheduling volume module, outside the shown sources): the
candidate pools pass the three node filters, then the two pool
filters, and the retained pools are sorted ascending by
allocated-replica count. -/
def select_pool (request : GetSuitablePoolsContext) (items : List PoolItem) :
    List PoolItem :=
  sortBy
    (fun a b =>
      match PoolSorters.sort_by_replica_count a b with
      | Ordering.gt => false
      | _ => true)
    (((((items.filter (fun i => NodeFilters.online request i)).filter
      (fun i => NodeFilters.allowed request i)).filter
      (fun i => NodeFilters.unused request i)).filter
      (fun i => PoolFilters.free_space request i)).filter
      (fun i => PoolFilters.usable request i))

/-! ## control-plane/agents/core/src/core/states.rs -/

/-- Modelled from the spec: message-bus Pool record held by the cache;
only the identity is relevant to the cache contract. -/
structure Pool where
  id : Nat
  node : Nat
deriving DecidableEq, Repr

/-- Modelled from the spec: message-bus Nexus record held by the
cache. -/
structure Nexus where
  uuid : Nat
  node : Nat
deriving DecidableEq, Repr

/-- Store-level pool state wrapping the message-bus pool. -/
structure PoolState where
  pool : Pool
deriving DecidableEq, Repr

/-- Store-level nexus state wrapping the message-bus nexus. -/
structure NexusState where
  nexus : Nexus
deriving DecidableEq, Repr

/-- Store-level replica state wrapping the message-bus replica. -/
structure ReplicaState where
  replica : Replica
deriving DecidableEq, Repr

/-- Conversion of a message-bus pool into its store state (the From
conversion applied by populate). -/
def PoolState.ofPool (p : Pool) : PoolState := { pool := p }

/-- Conversion of a message-bus nexus into its store state. -/
def NexusState.ofNexus (n : Nexus) : NexusState := { nexus := n }

/-- Conversion of a message-bus replica into its store state. -/
def ReplicaState.ofReplica (r : Replica) : ReplicaState := { replica := r }

/-- Modelled from the spec: the keyed concurrent map underlying the
cache, holding one state cell per identifier; sequential model as an
association list in insertion order (each cell its own entry, cloned
out on read). -/
structure ResourceMap (K V : Type) where
  entries : List (K × V)
deriving DecidableEq, Repr

/-- ResourceMap::clear: drop every entry. -/
def ResourceMap.clear (_m : ResourceMap K V) : ResourceMap K V :=
  { entries := [] }

/-- ResourceMap::populate: add one entry per value, keyed by the value
key. -/
def ResourceMap.populate (m : ResourceMap K V) (key : V → K)
    (values : List V) : ResourceMap K V :=
  { entries := m.entries ++ values.map (fun v => (key v, v)) }

/-- ResourceMap::to_vec: the stored values. -/
def ResourceMap.to_vec (m : ResourceMap K V) : List V :=
  m.entries.map Prod.snd

/-- ResourceMap::get: clone of the value stored for an id. -/
def ResourceMap.get [BEq K] (m : ResourceMap K V) (k : K) : Option V :=
  (m.entries.find? (fun kv => kv.fst == k)).map Prod.snd

/-- Resource states: the cached snapshots of nexuses, pools and
replicas, each keyed by identifier. -/
structure ResourceStates where
  nexuses : ResourceMap Nat NexusState
  pools : ResourceMap Nat PoolState
  replicas : ResourceMap Nat ReplicaState
deriving DecidableEq, Repr

/-- ResourceStates::update_nexuses: clear then repopulate the nexus
snapshot. -/
def ResourceStates.update_nexuses (s : ResourceStates)
    (nexuses : List Nexus) : ResourceStates :=
  { s with
    nexuses := (s.nexuses.clear).populate (fun ns => ns.nexus.uuid)
      (nexuses.map NexusState.ofNexus) }

/-- ResourceStates::get_nexus_states. -/
def ResourceStates.get_nexus_states (s : ResourceStates) : List NexusState :=
  s.nexuses.to_vec

/-- ResourceStates::get_nexus_state. -/
def ResourceStates.get_nexus_state (s : ResourceStates) (id : Nat) :
    Option NexusState :=
  s.nexuses.get id

/-- ResourceStates::update_pools: clear then repopulate the pool
snapshot. -/
def ResourceStates.update_pools (s : ResourceStates) (pools : List Pool) :
    ResourceStates :=
  { s with
    pools := (s.pools.clear).populate (fun ps => ps.pool.id)
      (pools.map PoolState.ofPool) }

/-- ResourceStates::get_pool_states. -/
def ResourceStates.get_pool_states (s : ResourceStates) : List PoolState :=
  s.pools.to_vec

/-- ResourceStates::get_pool_state. -/
def ResourceStates.get_pool_state (s : ResourceStates) (id : Nat) :
    Option PoolState :=
  s.pools.get id

/-- ResourceStates::update_replicas: clear then repopulate the replica
snapshot. -/
def ResourceStates.update_replicas (s : ResourceStates)
    (replicas : List Replica) : ResourceStates :=
  { s with
    replicas := (s.replicas.clear).populate (fun rs => rs.replica.uuid)
      (replicas.map ReplicaState.ofReplica) }

/-- ResourceStates::get_replica_states. -/
def ResourceStates.get_replica_states (s : ResourceStates) :
    List ReplicaState :=
  s.replicas.to_vec

/-- ResourceStates::get_replica_state. -/
def ResourceStates.get_replica_state (s : ResourceStates) (id : Nat) :
    Option ReplicaState :=
  s.replicas.get id

/-- ResourceStates::update: refresh replicas, pools and nexuses. -/
def ResourceStates.update (s : ResourceStates) (pools : List Pool)
    (replicas : List Replica) (nexuses : List Nexus) : ResourceStates :=
  ((s.update_replicas replicas).update_pools pools).update_nexuses nexuses

/-- ResourceStates::clear_all: reset every class. -/
def ResourceStates.clear_all (s : ResourceStates) : ResourceStates :=
  { nexuses := s.nexuses.clear, pools := s.pools.clear,
    replicas := s.replicas.clear }

/-! Claims C4 and C10 -/

/-- C4: NvmfControllerIdRange::new start end returns Ok exactly when
both start and end lie in the inclusive range 1..=0xffef and
start < end, and otherwise returns an invalid-argument error tagged
with the Nexus resource kind; in particular new 5 3 fails and
new 1 0xffef succeeds. -/
theorem nvmf_controller_id_range_new_spec :
    (∀ start stop : Nat,
      NvmfControllerIdRange.new start stop =
        if (1 ≤ start ∧ start ≤ 0xffef) ∧ (1 ≤ stop ∧ stop ≤ 0xffef)
            ∧ start < stop then
          Except.ok { min := start, max := stop }
        else
          Except.error (ReplyError.invalid_argument ResourceKind.Nexus))
    ∧ NvmfControllerIdRange.new 5 3 =
        Except.error (ReplyError.invalid_argument ResourceKind.Nexus)
    ∧ NvmfControllerIdRange.new 1 0xffef =
        Except.ok { min := 1, max := 0xffef } := by
  refine ⟨fun start stop => ?_, rfl, rfl⟩
  have h : (controller_id_range_contains start
        && controller_id_range_contains stop && decide (start < stop)) = true
      ↔ ((1 ≤ start ∧ start ≤ 0xffef) ∧ (1 ≤ stop ∧ stop ≤ 0xffef)
        ∧ start < stop) := by
    simp [controller_id_range_contains, MIN_CONTROLLER_ID, MAX_CONTROLLER_ID,
      and_assoc]
  unfold NvmfControllerIdRange.new
  simp only [h]

/-- C10 (code bug): at the random draw r = 0xffff the u16 sum r + 1
wraps to 0, so NvmfControllerIdRange::random_min returns a range whose
minimum is 0, strictly below the validated lower bound 1. -/
theorem random_min_wrap_bug :
    (NvmfControllerIdRange.random_min 0xffff).min = 0
    ∧ (NvmfControllerIdRange.random_min 0xffff).min < MIN_CONTROLLER_ID
    ∧ (NvmfControllerIdRange.random_min 0xffff).max = 0xffef := by
  refine ⟨rfl, ?_, rfl⟩
  decide

/-! Claim C1 -/

/-- C1 (code bug): two add-replica candidates of equal locality (both
remote to the nexus node 7) and equal health (both marked healthy), the
first from a pool with free space 20, the second from a pool with free
space 10: AddReplicaSorters::sort orders the larger-free-space
candidate after the smaller one (Greater), while the claim, the
function doc comment, and the spec order larger free space first. -/
theorem add_replica_sort_free_space_bug :
    AddReplicaSorters.sort
      { nexus_spec := { node := 7 }, vol_spec := { size := 100 } }
      { state := { uuid := 1, node := 3, online := true, size := 100 },
        info := some { healthy := true },
        pool :=
          { node := 3, free_space := 20, replica_count := 0,
            state := PoolStatus.Online } }
      { state := { uuid := 2, node := 3, online := true, size := 100 },
        info := some { healthy := true },
        pool :=
          { node := 3, free_space := 10, replica_count := 0,
            state := PoolStatus.Online } }
      = Ordering.gt
    ∧ (10 : Nat) < 20 := by
  exact ⟨by decide, by decide⟩

/-! Claim C2 -/

/-- C2 counterexample: two replicas both attached as children, with
equal child health states (both Online), equal locality (both shared)
and rebuild progress 10 versus 50: ChildSorters::sort returns Equal,
not the Less the claim requires for the lower-rebuild-progress
replica; rebuild progress is not consulted on equal states. -/
theorem child_sorters_equal_state_cex :
    ChildState.pcmp ChildState.Online ChildState.Online = some Ordering.eq
    ∧ (10 : Nat) < 50
    ∧ ChildSorters.sort
        { spec := { share := Protocol.Nvmf }, child_spec := some {},
          child_state :=
            some { state := ChildState.Online, rebuild_progress := 10 } }
        { spec := { share := Protocol.Nvmf }, child_spec := some {},
          child_state :=
            some { state := ChildState.Online, rebuild_progress := 50 } }
      = Ordering.eq := by
  exact ⟨by decide, by decide, by decide⟩

/-- C2 (amended): for two ReplicaItems both attached to a nexus as
children with live child states, when the child health states are
incomparable the one with lower rebuild progress orders first, and
when the health states compare as equal the non-local (shared) replica
orders before the local one. -/
theorem child_sorters_removal_order (a b : ReplicaItem) (sa sb : Child)
    (hac : a.child_spec.isSome = true) (hbc : b.child_spec.isSome = true)
    (has : a.child_state = some sa) (hbs : b.child_state = some sb) :
    (ChildState.pcmp sa.state sb.state = none →
      sa.rebuild_progress < sb.rebuild_progress →
      ChildSorters.sort a b = Ordering.lt)
    ∧ (ChildState.pcmp sa.state sb.state = some Ordering.eq →
      a.spec.share.shared = true → b.spec.share.shared = false →
      ChildSorters.sort a b = Ordering.lt) := by
  obtain ⟨aspec, acs, ast⟩ := a
  obtain ⟨bspec, bcs, bst⟩ := b
  simp only at hac hbc has hbs
  obtain ⟨ac, rfl⟩ := Option.isSome_iff_exists.mp hac
  obtain ⟨bc, rfl⟩ := Option.isSome_iff_exists.mp hbc
  subst has hbs
  constructor
  · intro hp hlt
    simp only [ChildSorters.sort, ChildSorters.sort_by_child, hp, natCmp,
      if_pos hlt]
  · intro hp hsh hloc
    simp only [ChildSorters.sort, ChildSorters.sort_by_child, hp]
    simp [hsh, hloc]

/-- Witness for the amended C2 theorem: an incomparable pair decided by
rebuild progress, and an equal pair decided by locality, both at
concrete inputs. -/
theorem child_sorters_removal_order_witness :
    ChildSorters.sort
      { spec := { share := Protocol.Nvmf }, child_spec := some {},
        child_state :=
          some { state := ChildState.Unknown, rebuild_progress := 1 } }
      { spec := { share := Protocol.Nvmf }, child_spec := some {},
        child_state :=
          some { state := ChildState.Online, rebuild_progress := 5 } }
      = Ordering.lt
    ∧ ChildSorters.sort
      { spec := { share := Protocol.Nvmf }, child_spec := some {},
        child_state :=
          some { state := ChildState.Online, rebuild_progress := 0 } }
      { spec := { share := Protocol.None }, child_spec := some {},
        child_state :=
          some { state := ChildState.Online, rebuild_progress := 0 } }
      = Ordering.lt := by
  refine ⟨?_, ?_⟩
  · exact (child_sorters_removal_order
      { spec := { share := Protocol.Nvmf }, child_spec := some {},
        child_state :=
          some { state := ChildState.Unknown, rebuild_progress := 1 } }
      { spec := { share := Protocol.Nvmf }, child_spec := some {},
        child_state :=
          some { state := ChildState.Online, rebuild_progress := 5 } }
      { state := ChildState.Unknown, rebuild_progress := 1 }
      { state := ChildState.Online, rebuild_progress := 5 }
      rfl rfl rfl rfl).1 (by decide) (by decide)
  · exact (child_sorters_removal_order
      { spec := { share := Protocol.Nvmf }, child_spec := some {},
        child_state :=
          some { state := ChildState.Online, rebuild_progress := 0 } }
      { spec := { share := Protocol.None }, child_spec := some {},
        child_state :=
          some { state := ChildState.Online, rebuild_progress := 0 } }
      { state := ChildState.Online, rebuild_progress := 0 }
      { state := ChildState.Online, rebuild_progress := 0 }
      rfl rfl rfl rfl).2 (by decide) (by decide) (by decide)

/-! Claim C3 -/

/-- C3: every pool retained by the eligibility filters of the
select_pool pipeline has free space strictly greater than the
requested size and a health state that is neither Faulted nor Unknown
(so a pool with free space at or below the requested size, or in
Faulted or Unknown state, is never retained). -/
theorem select_pool_eligibility (request : GetSuitablePoolsContext)
    (items : List PoolItem) (p : PoolItem)
    (h : p ∈ select_pool request items) :
    request.size < p.pool.free_space
    ∧ p.pool.state ≠ PoolStatus.Faulted
    ∧ p.pool.state ≠ PoolStatus.Unknown := by
  unfold select_pool at h
  rw [mem_sortBy] at h
  have husable := (List.mem_filter.mp h).2
  have hfree := (List.mem_filter.mp (List.mem_filter.mp h).1).2
  simp only [PoolFilters.free_space, decide_eq_true_eq] at hfree
  simp only [PoolFilters.usable, Bool.and_eq_true, Bool.not_eq_true',
    beq_eq_false_iff_ne, ne_eq] at husable
  exact ⟨hfree, husable.1, husable.2⟩

/-- Witness for C3: a concrete request of size 5 and a single online
pool with free space 10 that the pipeline returns. -/
theorem select_pool_eligibility_witness :
    (5 : Nat) < 10
    ∧ PoolStatus.Online ≠ PoolStatus.Faulted
    ∧ PoolStatus.Online ≠ PoolStatus.Unknown :=
  select_pool_eligibility
    { size := 5, allowed_nodes := [], volume_data_nodes := [] }
    [{ node := { is_online := true },
       pool :=
         { node := 1, free_space := 10, replica_count := 0,
           state := PoolStatus.Online } }]
    { node := { is_online := true },
      pool :=
        { node := 1, free_space := 10, replica_count := 0,
          state := PoolStatus.Online } }
    (by decide)

/-! Claim C5 -/

/-- C5: ChildInfoFilters::healthy accepts every candidate when the
request carries no persisted nexus info (first-ever creation), and
otherwise accepts a candidate exactly when its persisted child info is
present and marks it healthy. -/
theorem child_info_filters_healthy_spec
    (request : GetPersistedNexusChildrenCtx) (item : ChildItem) :
    ChildInfoFilters.healthy request item = true ↔
      (request.nexus_info = none
        ∨ ∃ ci : ChildInfo, item.info = some ci ∧ ci.healthy = true) := by
  obtain ⟨ni, vspec, tn⟩ := request
  obtain ⟨st, info, pl⟩ := item
  rcases ni with _ | n <;> rcases info with _ | ⟨hb⟩ <;>
    simp [ChildInfoFilters.healthy]

/-! Claim C6 -/

/-- Comparison of a Nat with itself is Equal. -/
theorem natCmp_self (n : Nat) : natCmp n n = Ordering.eq := by
  simp [natCmp]

/-- Comparison of a Bool with itself is Equal. -/
theorem boolCmp_self (b : Bool) : boolCmp b b = Ordering.eq := by
  cases b <;> rfl

/-- C6 counterexample: three attached replicas (Online with rebuild
progress 0, Unknown with rebuild progress 5, Degraded with rebuild
progress 10, all shared): the removal comparator orders the first
before the second and the second before the third, yet the first after
the third, so the induced order is not transitive. -/
theorem child_sorters_not_transitive_cex :
    ChildSorters.sort
      { spec := { share := Protocol.Nvmf }, child_spec := some {},
        child_state :=
          some { state := ChildState.Online, rebuild_progress := 0 } }
      { spec := { share := Protocol.Nvmf }, child_spec := some {},
        child_state :=
          some { state := ChildState.Unknown, rebuild_progress := 5 } }
      = Ordering.lt
    ∧ ChildSorters.sort
      { spec := { share := Protocol.Nvmf }, child_spec := some {},
        child_state :=
          some { state := ChildState.Unknown, rebuild_progress := 5 } }
      { spec := { share := Protocol.Nvmf }, child_spec := some {},
        child_state :=
          some { state := ChildState.Degraded, rebuild_progress := 10 } }
      = Ordering.lt
    ∧ ChildSorters.sort
      { spec := { share := Protocol.Nvmf }, child_spec := some {},
        child_state :=
          some { state := ChildState.Online, rebuild_progress := 0 } }
      { spec := { share := Protocol.Nvmf }, child_spec := some {},
        child_state :=
          some { state := ChildState.Degraded, rebuild_progress := 10 } }
      = Ordering.gt := by
  exact ⟨by decide, by decide, by decide⟩

/-- C6 (amended): the two removal comparators are total and
deterministic pure functions: every pair of items compares to exactly
one Ordering and an item compares Equal to itself; the induced order,
however, is not transitive. -/
theorem sorters_total_deterministic :
    (∀ a b : ReplicaItem, ∃! o : Ordering, ChildSorters.sort a b = o)
    ∧ (∀ a : ReplicaItem, ChildSorters.sort a a = Ordering.eq)
    ∧ (∀ a b : NexusChildItem, ∃! o : Ordering, NexusChildSorter.sort a b = o)
    ∧ (∀ a : NexusChildItem, NexusChildSorter.sort a a = Ordering.eq) := by
  refine ⟨fun a b => ⟨ChildSorters.sort a b, rfl, fun y hy => hy.symm⟩,
    fun a => ?_,
    fun a b => ⟨NexusChildSorter.sort a b, rfl, fun y hy => hy.symm⟩,
    fun a => ?_⟩
  · obtain ⟨⟨sh⟩, cs, st⟩ := a
    rcases cs with _ | c <;> rcases st with _ | ⟨ss, rp⟩ <;>
      first
      | cases ss <;>
          simp [ChildSorters.sort, ChildSorters.sort_by_child,
            ChildState.pcmp, ChildState.rank, natCmp_self]
      | simp [ChildSorters.sort, ChildSorters.sort_by_child]
  · obtain ⟨rep, st⟩ := a
    rcases rep with _ | ⟨p⟩ <;> rcases st with _ | ⟨ss, rp⟩ <;>
      first
      | cases ss <;>
          simp [NexusChildSorter.sort, ChildState.pcmp, ChildState.rank,
            natCmp_self, optionCmp, boolCmp_self]
      | simp [NexusChildSorter.sort, optionCmp, boolCmp_self]

/-- Witness for the amended C6 theorem: both comparators evaluated on
concrete items compare an item Equal to itself. -/
theorem sorters_total_deterministic_witness :
    ChildSorters.sort
      { spec := { share := Protocol.Nvmf }, child_spec := some {},
        child_state :=
          some { state := ChildState.Online, rebuild_progress := 3 } }
      { spec := { share := Protocol.Nvmf }, child_spec := some {},
        child_state :=
          some { state := ChildState.Online, rebuild_progress := 3 } }
      = Ordering.eq
    ∧ NexusChildSorter.sort
      { replica := some { share := Protocol.Nvmf },
        child_state :=
          some { state := ChildState.Degraded, rebuild_progress := 7 } }
      { replica := some { share := Protocol.Nvmf },
        child_state :=
          some { state := ChildState.Degraded, rebuild_progress := 7 } }
      = Ordering.eq := by
  exact ⟨sorters_total_deterministic.2.1 _, sorters_total_deterministic.2.2.2 _⟩

/-! Claim C7 -/

/-- Projecting the values back out of a keyed entry list returns the
values. -/
theorem map_snd_keyed (key : V → K) (l : List V) :
    (l.map (fun v => (key v, v))).map Prod.snd = l := by
  induction l with
  | nil => rfl
  | cons x xs ih => simp [ih]

/-- A lookup in a freshly repopulated map finds a value exactly when
some populated value carries the looked-up key. -/
theorem resourceMap_get_populate_isSome (m : ResourceMap Nat V)
    (key : V → Nat) (l : List V) (k : Nat) :
    ((ResourceMap.populate (ResourceMap.clear m) key l).get k).isSome = true
      ↔ ∃ v ∈ l, key v = k := by
  unfold ResourceMap.populate ResourceMap.clear ResourceMap.get
  simp only [List.nil_append]
  induction l with
  | nil => simp
  | cons x xs ih =>
    simp only [List.map_cons]
    by_cases h : key x = k
    · rw [List.find?_cons_of_pos _ (by simpa using h)]
      simp [h]
    · rw [List.find?_cons_of_neg _ (by simpa using h)]
      rw [ih]
      simp only [List.mem_cons]
      constructor
      · rintro ⟨v, hv, hk⟩
        exact ⟨v, Or.inr hv, hk⟩
      · rintro ⟨v, rfl | hv, hk⟩
        · exact absurd hk h
        · exact ⟨v, hv, hk⟩

/-- C7: update_pools replaces the pool snapshot with exactly the states
derived from the given list (get_pool_states returns their clones and
get_pool_state finds an id exactly when the list carries it) and leaves
the nexus and replica snapshots unchanged. -/
theorem update_pools_frame (s : ResourceStates) (l : List Pool) :
    (ResourceStates.update_pools s l).get_pool_states = l.map PoolState.ofPool
    ∧ (∀ id : Nat,
        ((ResourceStates.update_pools s l).get_pool_state id).isSome = true
          ↔ ∃ p ∈ l, p.id = id)
    ∧ (ResourceStates.update_pools s l).get_nexus_states = s.get_nexus_states
    ∧ (ResourceStates.update_pools s l).get_replica_states
        = s.get_replica_states := by
  refine ⟨?_, fun id => ?_, rfl, rfl⟩
  · simp only [ResourceStates.update_pools, ResourceStates.get_pool_states,
      ResourceMap.to_vec, ResourceMap.populate, ResourceMap.clear,
      List.nil_append]
    exact map_snd_keyed _ _
  · rw [ResourceStates.update_pools, ResourceStates.get_pool_state]
    simp only [resourceMap_get_populate_isSome, List.mem_map]
    constructor
    · rintro ⟨ps, ⟨p, hp, rfl⟩, hk⟩
      exact ⟨p, hp, hk⟩
    · rintro ⟨p, hp, hk⟩
      exact ⟨PoolState.ofPool p, ⟨p, hp, rfl⟩, hk⟩

/-! Claim C8 -/

/-- C8: NexusChildSorter::sort orders a child with no backing replica
spec before a replica-backed child, and among two replica-backed
children with live states whose health states compare Equal or are
incomparable, the non-local (shared) child orders before the local
one. -/
theorem nexus_child_sorter_spec :
    (∀ (a b : NexusChildItem) (rb : ReplicaSpec),
      a.replica = none → b.replica = some rb →
      NexusChildSorter.sort a b = Ordering.lt)
    ∧ (∀ (a b : NexusChildItem) (ra rb : ReplicaSpec) (sa sb : Child),
      a.replica = some ra → b.replica = some rb →
      a.child_state = some sa → b.child_state = some sb →
      (ChildState.pcmp sa.state sb.state = some Ordering.eq
        ∨ ChildState.pcmp sa.state sb.state = none) →
      ra.share.shared = true → rb.share.shared = false →
      NexusChildSorter.sort a b = Ordering.lt) := by
  constructor
  · intro a b rb ha hb
    obtain ⟨arep, ast⟩ := a
    obtain ⟨brep, bst⟩ := b
    simp only at ha hb
    subst ha hb
    rfl
  · intro a b ra rb sa sb ha hb has hbs hp hsh hloc
    obtain ⟨arep, ast⟩ := a
    obtain ⟨brep, bst⟩ := b
    simp only at ha hb has hbs
    subst ha hb has hbs
    rcases hp with hp | hp <;>
      simp [NexusChildSorter.sort, hp, optionCmp, hsh, hloc, boolCmp]

/-- Witness for C8: a generic-URI child ordered before a replica-backed
child, and a shared replica-backed child ordered before a local one on
equal health, at concrete inputs. -/
theorem nexus_child_sorter_spec_witness :
    NexusChildSorter.sort
      { replica := none,
        child_state :=
          some { state := ChildState.Online, rebuild_progress := 0 } }
      { replica := some { share := Protocol.Nvmf },
        child_state :=
          some { state := ChildState.Online, rebuild_progress := 0 } }
      = Ordering.lt
    ∧ NexusChildSorter.sort
      { replica := some { share := Protocol.Nvmf },
        child_state :=
          some { state := ChildState.Online, rebuild_progress := 0 } }
      { replica := some { share := Protocol.None },
        child_state :=
          some { state := ChildState.Online, rebuild_progress := 0 } }
      = Ordering.lt := by
  constructor
  · exact nexus_child_sorter_spec.1
      { replica := none,
        child_state :=
          some { state := ChildState.Online, rebuild_progress := 0 } }
      { replica := some { share := Protocol.Nvmf },
        child_state :=
          some { state := ChildState.Online, rebuild_progress := 0 } }
      { share := Protocol.Nvmf } rfl rfl
  · exact nexus_child_sorter_spec.2
      { replica := some { share := Protocol.Nvmf },
        child_state :=
          some { state := ChildState.Online, rebuild_progress := 0 } }
      { replica := some { share := Protocol.None },
        child_state :=
          some { state := ChildState.Online, rebuild_progress := 0 } }
      { share := Protocol.Nvmf } { share := Protocol.None }
      { state := ChildState.Online, rebuild_progress := 0 }
      { state := ChildState.Online, rebuild_progress := 0 }
      rfl rfl rfl rfl (Or.inl (by decide)) (by decide) (by decide)

/-! Claim C9 -/

/-- C9: a pool whose node the registry records as already hosting a
replica of the requesting volume is rejected by NodeFilters::unused,
and consequently no pool returned by the select_pool pipeline lives on
such a node. -/
theorem node_filter_unused_anti_affinity :
    (∀ (request : GetSuitablePoolsContext) (item : PoolItem),
      item.pool.node ∈ request.volume_data_nodes →
      NodeFilters.unused request item = false)
    ∧ (∀ (request : GetSuitablePoolsContext) (items : List PoolItem)
        (p : PoolItem), p ∈ select_pool request items →
        p.pool.node ∉ request.volume_data_nodes) := by
  constructor
  · intro request item hmem
    simp [NodeFilters.unused, hmem]
  · intro request items p h
    unfold select_pool at h
    rw [mem_sortBy] at h
    have h1 := (List.mem_filter.mp h).1
    have h2 := (List.mem_filter.mp h1).1
    have hun := (List.mem_filter.mp h2).2
    simp only [NodeFilters.unused, Bool.not_eq_true'] at hun
    intro hmem
    simp [hmem] at hun

/-- Witness for C9: a node hosting a volume replica is filtered out,
and a selected pool at a concrete input lives on an unused node. -/
theorem node_filter_unused_anti_affinity_witness :
    NodeFilters.unused
      { size := 5, allowed_nodes := [], volume_data_nodes := [1] }
      { node := { is_online := true },
        pool :=
          { node := 1, free_space := 10, replica_count := 0,
            state := PoolStatus.Online } }
      = false
    ∧ (1 : Nat) ∉ ([42] : List Nat) := by
  constructor
  · exact node_filter_unused_anti_affinity.1
      { size := 5, allowed_nodes := [], volume_data_nodes := [1] }
      { node := { is_online := true },
        pool :=
          { node := 1, free_space := 10, replica_count := 0,
            state := PoolStatus.Online } }
      (by decide)
  · exact node_filter_unused_anti_affinity.2
      { size := 5, allowed_nodes := [], volume_data_nodes := [42] }
      [{ node := { is_online := true },
         pool :=
           { node := 1, free_space := 10, replica_count := 0,
             state := PoolStatus.Online } }]
      { node := { is_online := true },
        pool :=
          { node := 1, free_space := 10, replica_count := 0,
            state := PoolStatus.Online } }
      (by decide)
